import Mathlib

/-!
Shallow embedding of the CSI node service (pkg/node) of this repository:
the lifecycle request handlers NodeStageVolume, NodeUnstageVolume,
NodePublishVolume, NodeUnpublishVolume, the mount helper
prepareAndPerformMount and the device-path resolver constructPartition.

External collaborators (the per-storage-class mount strategy, the
drive-query utilities, the persistence service and the VolumeManager
cache primitives) are represented by an oracle supplying their outcomes
and, where their code is not part of the analysed sources, their state
effect is modelled from the specification; each such definition carries a
doc comment saying so.  Every handler returns its result together with
the successor state and a trace of the external calls it performed, in
order.
-/

deriving instance DecidableEq for Except

namespace CsiNode

/-- Volume lifecycle statuses (apiV1 constants Creating, Created,
VolumeReady, Published, Failed, Removed). -/
inductive CSIStatus
  | Creating
  | Created
  | VolumeReady
  | Published
  | Failed
  | Removed
deriving DecidableEq

/-- Storage classes: plain-drive classes and the two volume-group-backed
classes HDDLVG and SSDLVG (apiV1.StorageClass constants). -/
inductive StorageClass
  | HDD
  | SSD
  | NVMe
  | Any
  | HDDLVG
  | SSDLVG
deriving DecidableEq

/-- The fields of api.Volume that the node handlers read or write. -/
structure Volume where
  id : String
  storageClass : StorageClass
  location : String
  csiStatus : CSIStatus
  ephemeral : Bool
  owners : List String
deriving DecidableEq

/-- A cached drive record; the handlers only pass it to the drive-query
collaborator, so a serial-number handle suffices. -/
structure Drive where
  serialNumber : String
deriving DecidableEq

/-- gRPC status codes used by the handlers. -/
inductive Code
  | invalidArgument
  | notFound
  | internal
  | unimplemented
deriving DecidableEq

/-- Errors returned by the handlers: statusErr models
status.Error(code, msg), plainErr models fmt.Errorf(msg). -/
inductive NodeErr
  | statusErr (code : Code) (msg : String)
  | plainErr (msg : String)
deriving DecidableEq

/-- One observable call to an external collaborator or to the
VolumeManager cache, recorded in each handler's trace. -/
inductive Effect
  | createTargetPath (path : String)
  | deleteTargetPath (path : String)
  | isMountPoint (path : String)
  | mountCall (src dst opts : String)
  | unmountCall (path : String)
  | getVGNameCall (crName : String)
  | searchDrivePathCall (serialNumber : String)
  | getPartitionUUIDCall (bdev : String)
  | sleepPartTable
  | getPartitionNameCall (bdev uuid : String)
  | svcDelete (volId : String)
  | svcWait (volId : String) (targets : List CSIStatus)
  | svcUpdateCRs (volId : String)
  | setStatus (volId : String) (st : CSIStatus)
  | addOwner (volId pod : String)
  | clearOwners (volId : String)
  | inlineCreate (volId : String)
deriving DecidableEq

/-- The node's mutable state: the VolumeManager volume cache, the drive
cache, and the set of effective (source, target) mounts on the host. -/
structure NodeState where
  volumeCache : List (String × Volume)
  drivesCache : List (String × Drive)
  mounts : List (String × String)
deriving DecidableEq

/-- Outcome of the persistence collaborator's DeleteVolume: success, a
k8s not-found (record already absent), or a failure.  Modelled from the
spec: collaborator failures belong to the internal error class. -/
inductive DeleteRes
  | ok
  | absent
  | fail (msg : String)
deriving DecidableEq

/-- Oracle fixing the outcomes of all external collaborator calls a
handler can make: the group-name translation, the drive-query utilities,
the per-storage-class mount strategy, the persistence service and the
best-effort owner bookkeeping. -/
structure Oracle where
  vgName : String → Except NodeErr String
  searchDrivePath : Drive → Except NodeErr String
  getVolumeUUID : String → String
  getPartitionUUID : String → Except NodeErr String
  getPartitionNameByUUID : String → String → Except NodeErr String
  createTargetPath : String → Option NodeErr
  isMountPoint : String → Except NodeErr Bool
  mountOutcome : String → String → String → Option NodeErr
  unmountOutcome : String → Option NodeErr
  deleteRes : DeleteRes
  waitErr : Option NodeErr
  clearOwnersErr : Option NodeErr
  addOwnerErr : Option NodeErr
  inlineVolume : Except NodeErr Volume

/-- PodNameKey constant of pkg/node. -/
def PodNameKey : String := "csi.storage.k8s.io/pod.name"

/-- EphemeralKey constant of pkg/node. -/
def EphemeralKey : String := "csi.storage.k8s.io/ephemeral"

/-- Association-list lookup on string-keyed volume entries (the
getFromVolumeCache map read). -/
def findVol : List (String × Volume) → String → Option Volume
  | [], _ => none
  | p :: tl, id => if p.1 = id then some p.2 else findVol tl id

/-- Association-list lookup on the drive cache (the drivesCache map
read; a missing key is Go's nil). -/
def findDrive : List (String × Drive) → String → Option Drive
  | [], _ => none
  | p :: tl, loc => if p.1 = loc then some p.2 else findDrive tl loc

/-- Association-list lookup on a request's volume context map. -/
def lookupStr : List (String × String) → String → Option String
  | [], _ => none
  | p :: tl, k => if p.1 = k then some p.2 else lookupStr tl k

/-- Pointwise update of the cache entry with the given id. -/
def mapVol (l : List (String × Volume)) (id : String) (f : Volume → Volume) :
    List (String × Volume) :=
  l.map fun p => if p.1 = id then (p.1, f p.2) else p

/-- Modelled from the spec: the VolumeManager's setVolumeStatus (not
among the analysed sources) overwrites the cached volume's lifecycle
status. -/
def setVolStatus (st : NodeState) (id : String) (c : CSIStatus) : NodeState :=
  { st with volumeCache := mapVol st.volumeCache id fun v => { v with csiStatus := c } }

/-- Status of the cached volume with the given id, if any. -/
def statusInCache (st : NodeState) (id : String) : Option CSIStatus :=
  (findVol st.volumeCache id).map Volume.csiStatus

/-- Owner list of the cached volume with the given id, if any. -/
def ownersInCache (st : NodeState) (id : String) : Option (List String) :=
  (findVol st.volumeCache id).map Volume.owners

/-- Modelled from the spec: the per-storage-class Mount is idempotent
("performs a second, idempotent mount ... and returns success"):
mounting an already-mounted (src, dst) pair succeeds without a new
effective mount; otherwise the collaborator's outcome decides and a
successful mount is recorded once. -/
def mountOp (o : Oracle) (st : NodeState) (src dst opts : String) :
    Option NodeErr × NodeState × List Effect :=
  if (src, dst) ∈ st.mounts then
    (none, st, [.mountCall src dst opts])
  else
    match o.mountOutcome src dst opts with
    | none => (none, { st with mounts := (src, dst) :: st.mounts }, [.mountCall src dst opts])
    | some e => (some e, st, [.mountCall src dst opts])

/-- The per-storage-class Unmount: on success every mount at the path is
gone; on failure the mount table is untouched. -/
def unmountOp (o : Oracle) (st : NodeState) (path : String) :
    Option NodeErr × NodeState × List Effect :=
  match o.unmountOutcome path with
  | none => (none, { st with mounts := st.mounts.filter fun m => m.2 != path }, [.unmountCall path])
  | some e => (some e, st, [.unmountCall path])

/-- The service's unmount helper: wraps any Unmount failure into
status.Error(codes.Internal, "Unable to unmount"). -/
def unmountSvc (o : Oracle) (st : NodeState) (path : String) :
    Option NodeErr × NodeState × List Effect :=
  match unmountOp o st path with
  | (some _, st2, tr) => (some (.statusErr .internal "Unable to unmount"), st2, tr)
  | (none, st2, tr) => (none, st2, tr)

/-- prepareAndPerformMount: creates the target path, probes whether it
is already a mount point (already-mounted is success with no Mount
call), and deletes the just-created target path when the probe or the
Mount call fails; bind selects the "--bind" option. -/
def prepareAndPerformMount (o : Oracle) (st : NodeState)
    (srcPath targetPath : String) (bind : Bool) :
    Option NodeErr × NodeState × List Effect :=
  match o.createTargetPath targetPath with
  | some e => (some e, st, [.createTargetPath targetPath])
  | none =>
    match o.isMountPoint targetPath with
    | .error e =>
        (some e, st,
         [.createTargetPath targetPath, .isMountPoint targetPath, .deleteTargetPath targetPath])
    | .ok true =>
        (none, st, [.createTargetPath targetPath, .isMountPoint targetPath])
    | .ok false =>
        let opts := if bind then "--bind" else ""
        match mountOp o st srcPath targetPath opts with
        | (some e, st2, tr) =>
            (some e, st2,
             [.createTargetPath targetPath, .isMountPoint targetPath] ++ tr
               ++ [.deleteTargetPath targetPath])
        | (none, st2, tr) =>
            (none, st2, [.createTargetPath targetPath, .isMountPoint targetPath] ++ tr)

/-- constructPartition: volume-group-backed classes build
/dev/(group)/(volumeId), where SSDLVG first translates Location through
GetVGNameByLVGCRName and HDDLVG uses Location directly; plain-drive
classes look the drive up by Location in the drive cache (absence is an
error, never a path), resolve its block device, pick the partition
identifier (read back from the device for ephemeral volumes, after the
fixed partition-table sleep) and resolve the partition name. -/
def constructPartition (o : Oracle) (st : NodeState) (v : Volume) :
    Except NodeErr String × List Effect :=
  match v.storageClass with
  | .HDDLVG | .SSDLVG =>
    if v.storageClass = .SSDLVG then
      match o.vgName v.location with
      | .error e => (.error e, [.getVGNameCall v.location])
      | .ok vg => (.ok ("/dev/" ++ (vg ++ "/" ++ v.id)), [.getVGNameCall v.location])
    else
      (.ok ("/dev/" ++ (v.location ++ "/" ++ v.id)), [])
  | _ =>
    match findDrive st.drivesCache v.location with
    | none => (.error (.plainErr ("drive with uuid " ++ v.location ++ " wasn't found ")), [])
    | some drive =>
      match o.searchDrivePath drive with
      | .error _ =>
          (.error (.statusErr .internal
             ("unable to find device for drive with S/N " ++ v.location)),
           [.searchDrivePathCall drive.serialNumber])
      | .ok bdev =>
        let uuid0 := o.getVolumeUUID v.id
        if v.ephemeral then
          match o.getPartitionUUID bdev with
          | .error _ =>
              (.error (.statusErr .internal ("unable to find partition by device " ++ bdev)),
               [.searchDrivePathCall drive.serialNumber, .getPartitionUUIDCall bdev])
          | .ok uuid =>
            match o.getPartitionNameByUUID bdev uuid with
            | .error e =>
                (.error e,
                 [.searchDrivePathCall drive.serialNumber, .getPartitionUUIDCall bdev,
                  .sleepPartTable, .getPartitionNameCall bdev uuid])
            | .ok part =>
                (.ok part,
                 [.searchDrivePathCall drive.serialNumber, .getPartitionUUIDCall bdev,
                  .sleepPartTable, .getPartitionNameCall bdev uuid])
        else
          match o.getPartitionNameByUUID bdev uuid0 with
          | .error e =>
              (.error e,
               [.searchDrivePathCall drive.serialNumber, .getPartitionNameCall bdev uuid0])
          | .ok part =>
              (.ok part,
               [.searchDrivePathCall drive.serialNumber, .getPartitionNameCall bdev uuid0])

/-- NodeStageVolumeRequest fields the handler reads. -/
structure StageRequest where
  hasVolumeCapability : Bool
  volumeId : String
  stagingTargetPath : String
deriving DecidableEq

/-- NodeStageVolume: argument checks, cache lookup (missing is
codes.NotFound), sticky-Failed check, device-path resolution, then
either the idempotent re-mount for an already-Ready volume (no status
write) or the first-time prepareAndPerformMount whose failure sets
Failed and whose success sets VolumeReady. -/
def NodeStageVolume (o : Oracle) (st : NodeState) (req : StageRequest) :
    Except NodeErr Unit × NodeState × List Effect :=
  if req.hasVolumeCapability = false then
    (.error (.statusErr .invalidArgument "Volume capability missing in request"), st, [])
  else if req.volumeId = "" then
    (.error (.statusErr .invalidArgument "Volume ID missing in request"), st, [])
  else if req.stagingTargetPath = "" then
    (.error (.statusErr .invalidArgument "Stage Path missing in request"), st, [])
  else
    match findVol st.volumeCache req.volumeId with
    | none =>
        (.error (.statusErr .notFound
           ("No volume with ID " ++ req.volumeId ++ " found on node")), st, [])
    | some v =>
      if v.csiStatus = .Failed then
        (.error (.plainErr ("corresponding volume CR " ++ v.id ++ " reached failed status")),
         st, [])
      else
        match constructPartition o st v with
        | (.error _, tr) =>
            (.error (.statusErr .internal "failed to publish volume"), st, tr)
        | (.ok part, tr) =>
          if v.csiStatus = .VolumeReady then
            match mountOp o st part req.stagingTargetPath "" with
            | (some _, st2, tr2) =>
                (.error (.plainErr ("failed to stage volume " ++ v.id)), st2, tr ++ tr2)
            | (none, st2, tr2) => (.ok (), st2, tr ++ tr2)
          else
            match prepareAndPerformMount o st part req.stagingTargetPath false with
            | (some _, st2, tr2) =>
                (.error (.plainErr "failed to stage volume"),
                 setVolStatus st2 req.volumeId .Failed,
                 tr ++ tr2 ++ [.setStatus req.volumeId .Failed])
            | (none, st2, tr2) =>
                (.ok (), setVolStatus st2 req.volumeId .VolumeReady,
                 tr ++ tr2 ++ [.setStatus req.volumeId .VolumeReady])

/-- NodeUnstageVolumeRequest fields the handler reads. -/
structure UnstageRequest where
  volumeId : String
  stagingTargetPath : String
deriving DecidableEq

/-- Modelled from the spec: the VolumeManager's clearVolumeOwners (not
among the analysed sources) empties the cached volume's owner list; on
failure the list is untouched and the caller only logs. -/
def clearVolumeOwners (o : Oracle) (st : NodeState) (id : String) :
    Option NodeErr × NodeState × List Effect :=
  match o.clearOwnersErr with
  | some e => (some e, st, [.clearOwners id])
  | none =>
      (none, { st with volumeCache := mapVol st.volumeCache id fun v => { v with owners := [] } },
       [.clearOwners id])

/-- NodeUnstageVolume: argument checks, cache lookup (missing is
codes.Internal), sticky-Failed check, best-effort owner clear (failure
only logged), then unmount of the staging path whose failure sets
Failed. -/
def NodeUnstageVolume (o : Oracle) (st : NodeState) (req : UnstageRequest) :
    Except NodeErr Unit × NodeState × List Effect :=
  if req.volumeId = "" then
    (.error (.statusErr .invalidArgument "Volume ID missing in request"), st, [])
  else if req.stagingTargetPath = "" then
    (.error (.statusErr .invalidArgument "Stage Path missing in request"), st, [])
  else
    match findVol st.volumeCache req.volumeId with
    | none => (.error (.statusErr .internal "Unable to find volume"), st, [])
    | some v =>
      if v.csiStatus = .Failed then
        (.error (.statusErr .internal ("corresponding CR " ++ v.id ++ " reached Failed status")),
         st, [])
      else
        match clearVolumeOwners o st req.volumeId with
        | (_, st1, tr1) =>
          match unmountSvc o st1 req.stagingTargetPath with
          | (some e, st2, tr2) =>
              (.error e, setVolStatus st2 v.id .Failed, tr1 ++ tr2 ++ [.setStatus v.id .Failed])
          | (none, st2, tr2) => (.ok (), st2, tr1 ++ tr2)

/-- Go's strconv.ParseBool. -/
def parseBool (s : String) : Except Unit Bool :=
  if s = "1" ∨ s = "t" ∨ s = "T" ∨ s = "TRUE" ∨ s = "true" ∨ s = "True" then .ok true
  else if s = "0" ∨ s = "f" ∨ s = "F" ∨ s = "FALSE" ∨ s = "false" ∨ s = "False" then .ok false
  else .error ()

/-- Modelled from the spec: the VolumeManager's addVolumeOwner (not
among the analysed sources) records the pod among the cached volume's
owners (each owner once); on failure the list is untouched and the
caller only logs. -/
def addVolumeOwner (o : Oracle) (st : NodeState) (id pod : String) :
    Option NodeErr × NodeState × List Effect :=
  match o.addOwnerErr with
  | some e => (some e, st, [.addOwner id pod])
  | none =>
      (none,
       { st with volumeCache := mapVol st.volumeCache id fun v =>
           { v with owners := if pod ∈ v.owners then v.owners else v.owners ++ [pod] } },
       [.addOwner id pod])

/-- Modelled from the spec: ephemeral-volume materialization (the
persistence collaborator's create and wait and the capacity hint are
not among the analysed sources); the oracle supplies the materialized
volume or the failure, and a successful materialization inserts the
volume into the node's volume cache. -/
def createInlineVolume (o : Oracle) (st : NodeState) (volumeId : String) :
    Except NodeErr Volume × NodeState × List Effect :=
  match o.inlineVolume with
  | .error e => (.error e, st, [.inlineCreate volumeId])
  | .ok vol =>
      (.ok vol, { st with volumeCache := (vol.id, vol) :: st.volumeCache },
       [.inlineCreate volumeId])

/-- NodePublishVolumeRequest fields the handler reads. -/
structure PublishRequest where
  hasVolumeCapability : Bool
  volumeId : String
  targetPath : String
  stagingTargetPath : String
  volumeContext : List (String × String)
deriving DecidableEq

/-- Common tail of NodePublishVolume after the mount source is fixed:
cache lookup (missing is codes.Internal), best-effort owner recording
(failure only logged), sticky-Failed check, then
prepareAndPerformMount whose failure sets Failed and whose success sets
Published. -/
def publishTail (o : Oracle) (st : NodeState) (req : PublishRequest)
    (srcPath : String) (bind : Bool) (tr0 : List Effect) :
    Except NodeErr Unit × NodeState × List Effect :=
  match findVol st.volumeCache req.volumeId with
  | none => (.error (.statusErr .internal "Unable to find volume"), st, tr0)
  | some v =>
    match
      (match lookupStr req.volumeContext PodNameKey with
       | none => (st, ([] : List Effect))
       | some pod =>
         match addVolumeOwner o st req.volumeId pod with
         | (_, st1, tr1) => (st1, tr1))
    with
    | (st1, tr1) =>
      if v.csiStatus = .Failed then
        (.error (.plainErr ("corresponding volume CR " ++ v.id ++ " reached failed status")),
         st1, tr0 ++ tr1)
      else
        match prepareAndPerformMount o st1 srcPath req.targetPath bind with
        | (some _, st2, tr2) =>
            (.error (.plainErr "failed to publish volume"), setVolStatus st2 v.id .Failed,
             tr0 ++ tr1 ++ tr2 ++ [.setStatus v.id .Failed])
        | (none, st2, tr2) =>
            (.ok (), setVolStatus st2 v.id .Published,
             tr0 ++ tr1 ++ tr2 ++ [.setStatus v.id .Published])

/-- NodePublishVolume: argument checks, ephemeral-flag parse (a bad
boolean only logs and leaves the flag false), then either the inline
path (create the ephemeral volume, resolve its device path, plain
mount) or the staged path (which requires a staging path and uses a
bind mount), both ending in publishTail. -/
def NodePublishVolume (o : Oracle) (st : NodeState) (req : PublishRequest) :
    Except NodeErr Unit × NodeState × List Effect :=
  if req.hasVolumeCapability = false then
    (.error (.statusErr .invalidArgument "Volume capability missing in request"), st, [])
  else if req.volumeId = "" then
    (.error (.statusErr .invalidArgument "Volume ID missing in request"), st, [])
  else if req.targetPath = "" then
    (.error (.statusErr .invalidArgument "Target Path missing in request"), st, [])
  else
    let inline :=
      match lookupStr req.volumeContext EphemeralKey with
      | some val => match parseBool val with | .ok b => b | .error _ => false
      | none => false
    if inline then
      match createInlineVolume o st req.volumeId with
      | (.error _, st1, tr1) =>
          (.error (.statusErr .internal "failed to publish volume"), st1, tr1)
      | (.ok vol, st1, tr1) =>
        match constructPartition o st1 vol with
        | (.error _, tr2) =>
            (.error (.statusErr .internal "failed to publish volume"), st1, tr1 ++ tr2)
        | (.ok srcPath, tr2) => publishTail o st1 req srcPath false (tr1 ++ tr2)
    else if req.stagingTargetPath = "" then
      (.error (.statusErr .invalidArgument "Staging Path missing in request"), st, [])
    else
      publishTail o st req req.stagingTargetPath true []

/-- NodeUnpublishVolumeRequest fields the handler reads. -/
structure UnpublishRequest where
  volumeId : String
  targetPath : String
deriving DecidableEq

/-- NodeUnpublishVolume: argument checks, cache lookup (missing is
codes.NotFound), unmount of the target path whose failure sets Failed;
on success, more than one owner keeps Published, otherwise the status
is demoted to VolumeReady and, for an ephemeral volume, the backing
record is deleted through the persistence collaborator (already-absent
is success), the collaborator is awaited for a terminal Failed or
Removed state, and its post-deletion cleanup runs. -/
def NodeUnpublishVolume (o : Oracle) (st : NodeState) (req : UnpublishRequest) :
    Except NodeErr Unit × NodeState × List Effect :=
  if req.volumeId = "" then
    (.error (.statusErr .invalidArgument "Volume ID missing in request"), st, [])
  else if req.targetPath = "" then
    (.error (.statusErr .invalidArgument "Target Path missing in request"), st, [])
  else
    match findVol st.volumeCache req.volumeId with
    | none => (.error (.statusErr .notFound "Unable to find volume"), st, [])
    | some v =>
      match unmountSvc o st req.targetPath with
      | (some e, st1, tr1) =>
          (.error e, setVolStatus st1 v.id .Failed, tr1 ++ [.setStatus v.id .Failed])
      | (none, st1, tr1) =>
        if v.owners.length > 1 then (.ok (), st1, tr1)
        else
          let st2 := setVolStatus st1 v.id .VolumeReady
          let tr2 := tr1 ++ [.setStatus v.id .VolumeReady]
          match findVol st2.volumeCache req.volumeId with
          | none => (.error (.statusErr .invalidArgument "Volume not found"), st2, tr2)
          | some volume =>
            if volume.ephemeral then
              match o.deleteRes with
              | .absent => (.ok (), st2, tr2 ++ [.svcDelete req.volumeId])
              | .fail msg =>
                  (.error (.statusErr .internal msg), st2, tr2 ++ [.svcDelete req.volumeId])
              | .ok =>
                match o.waitErr with
                | some _ =>
                    (.error (.statusErr .internal "Unable to delete volume"), st2,
                     tr2 ++ [.svcDelete req.volumeId,
                             .svcWait req.volumeId [.Failed, .Removed]])
                | none =>
                    (.ok (), st2,
                     tr2 ++ [.svcDelete req.volumeId,
                             .svcWait req.volumeId [.Failed, .Removed],
                             .svcUpdateCRs req.volumeId])
            else (.ok (), st2, tr2)

/-! ## Helper lemmas -/

theorem findVol_mapVol_self (l : List (String × Volume)) (id : String) (f : Volume → Volume) :
    findVol (mapVol l id f) id = (findVol l id).map f := by
  induction l with
  | nil => rfl
  | cons p tl ih =>
    by_cases h : p.1 = id
    · simp [mapVol, findVol, h]
    · simpa [mapVol, findVol, h] using ih

theorem statusInCache_setVolStatus_self (st : NodeState) (id : String) (c : CSIStatus)
    (h : (findVol st.volumeCache id).isSome = true) :
    statusInCache (setVolStatus st id c) id = some c := by
  have hvc : (setVolStatus st id c).volumeCache =
      mapVol st.volumeCache id (fun v => { v with csiStatus := c }) := rfl
  unfold statusInCache
  rw [hvc, findVol_mapVol_self]
  cases hv : findVol st.volumeCache id with
  | none => rw [hv] at h; simp at h
  | some v => simp

theorem addVolumeOwner_mounts (o : Oracle) (st : NodeState) (id pod : String) :
    (addVolumeOwner o st id pod).2.1.mounts = st.mounts := by
  unfold addVolumeOwner
  cases o.addOwnerErr <;> rfl

theorem addVolumeOwner_findVol_isSome (o : Oracle) (st : NodeState) (id pod : String) :
    (findVol (addVolumeOwner o st id pod).2.1.volumeCache id).isSome =
      (findVol st.volumeCache id).isSome := by
  cases ha : o.addOwnerErr with
  | some e => simp [addVolumeOwner, ha]
  | none =>
    have hvc : (addVolumeOwner o st id pod).2.1.volumeCache =
        mapVol st.volumeCache id (fun v =>
          { v with owners := if pod ∈ v.owners then v.owners else v.owners ++ [pod] }) := by
      simp [addVolumeOwner, ha]
    rw [hvc, findVol_mapVol_self]
    cases findVol st.volumeCache id <;> rfl

theorem prepareAndPerformMount_fst_congr (o : Oracle) (st st' : NodeState)
    (s t : String) (b : Bool) (h : st.mounts = st'.mounts) :
    (prepareAndPerformMount o st s t b).1 = (prepareAndPerformMount o st' s t b).1 := by
  unfold prepareAndPerformMount mountOp
  rw [h]
  cases o.createTargetPath t with
  | some e => rfl
  | none =>
    cases o.isMountPoint t with
    | error e => rfl
    | ok m =>
      cases m with
      | true => rfl
      | false =>
        by_cases hc : (s, t) ∈ st'.mounts
        · simp [hc]
        · simp only [if_neg hc]
          cases o.mountOutcome s t (if b then "--bind" else "") <;> rfl

theorem prepareAndPerformMount_volumeCache (o : Oracle) (st : NodeState)
    (s t : String) (b : Bool) :
    (prepareAndPerformMount o st s t b).2.1.volumeCache = st.volumeCache := by
  unfold prepareAndPerformMount mountOp
  cases o.createTargetPath t with
  | some e => rfl
  | none =>
    cases o.isMountPoint t with
    | error e => rfl
    | ok m =>
      cases m with
      | true => rfl
      | false =>
        by_cases hc : (s, t) ∈ st.mounts
        · simp [hc]
        · simp only [if_neg hc]
          cases o.mountOutcome s t (if b then "--bind" else "") <;> rfl

/-! ## Concrete fixtures for witnesses and counterexamples -/

/-- A benign oracle in which every collaborator call succeeds. -/
def oracleW : Oracle :=
  { vgName := fun n => .ok ("vg-" ++ n)
    searchDrivePath := fun d => .ok ("/dev/sd-" ++ d.serialNumber)
    getVolumeUUID := fun id => id
    getPartitionUUID := fun b => .ok ("uuid-" ++ b)
    getPartitionNameByUUID := fun b u => .ok (b ++ "-" ++ u)
    createTargetPath := fun _ => none
    isMountPoint := fun _ => .ok false
    mountOutcome := fun _ _ _ => none
    unmountOutcome := fun _ => none
    deleteRes := .ok
    waitErr := none
    clearOwnersErr := none
    addOwnerErr := none
    inlineVolume := .error (.plainErr "no inline volume") }

/-- The empty node state. -/
def stEmpty : NodeState := { volumeCache := [], drivesCache := [], mounts := [] }

/-- An already-Ready volume-group-backed volume, staged once. -/
def vReady : Volume :=
  { id := "v1", storageClass := .HDDLVG, location := "vg0", csiStatus := .VolumeReady,
    ephemeral := false, owners := ["podA"] }

/-- State in which vReady is cached and its device is mounted once at /stage. -/
def stReady : NodeState :=
  { volumeCache := [("v1", vReady)], drivesCache := [],
    mounts := [("/dev/vg0/v1", "/stage")] }

/-- A well-formed Stage request for vReady. -/
def reqReady : StageRequest :=
  { hasVolumeCapability := true, volumeId := "v1", stagingTargetPath := "/stage" }

/-! ## C1 -/

/-- C1: a second Stage call on a volume whose cached status is already
Ready is a no-op — it returns success, the state (cache and mount
table) is unchanged, the status stays Ready, and the device stays
mounted exactly once. -/
theorem stage_ready_second_call_noop (o : Oracle) (st : NodeState) (req : StageRequest)
    (v : Volume) (p : String) (tr : List Effect)
    (hcap : req.hasVolumeCapability = true)
    (hid : ¬ req.volumeId = "")
    (hpath : ¬ req.stagingTargetPath = "")
    (hv : findVol st.volumeCache req.volumeId = some v)
    (hready : v.csiStatus = .VolumeReady)
    (hpart : constructPartition o st v = (.ok p, tr))
    (hmounted : (p, req.stagingTargetPath) ∈ st.mounts)
    (honce : st.mounts.count (p, req.stagingTargetPath) = 1) :
    (NodeStageVolume o st req).1 = .ok () ∧
    (NodeStageVolume o st req).2.1 = st ∧
    statusInCache (NodeStageVolume o st req).2.1 req.volumeId = some .VolumeReady ∧
    (NodeStageVolume o st req).2.1.mounts.count (p, req.stagingTargetPath) = 1 := by
  have hres : NodeStageVolume o st req = (.ok (), st, tr ++ [.mountCall p req.stagingTargetPath ""]) := by
    simp [NodeStageVolume, hcap, hid, hpath, hv, hpart, hready, mountOp, hmounted]
  rw [hres]
  refine ⟨rfl, rfl, ?_, honce⟩
  simp [statusInCache, hv, hready]

/-- Closed instance of stage_ready_second_call_noop at a concrete
already-Ready staged volume. -/
theorem stage_ready_second_call_noop_witness :
    (NodeStageVolume oracleW stReady reqReady).1 = .ok () ∧
    (NodeStageVolume oracleW stReady reqReady).2.1 = stReady ∧
    statusInCache (NodeStageVolume oracleW stReady reqReady).2.1 "v1" = some .VolumeReady ∧
    (NodeStageVolume oracleW stReady reqReady).2.1.mounts.count ("/dev/vg0/v1", "/stage") = 1 :=
  stage_ready_second_call_noop oracleW stReady reqReady vReady "/dev/vg0/v1" []
    rfl (by decide) (by decide) rfl rfl rfl (by decide) (by decide)

/-! ## C5 -/

/-- C5: for the same missing-volume condition the two handlers return
different error classes — Stage returns codes.NotFound while Unstage
returns codes.Internal. -/
theorem missing_volume_error_asymmetry (o : Oracle) (st : NodeState)
    (reqS : StageRequest) (requ : UnstageRequest)
    (hcapS : reqS.hasVolumeCapability = true)
    (hidS : ¬ reqS.volumeId = "")
    (hpathS : ¬ reqS.stagingTargetPath = "")
    (hvS : findVol st.volumeCache reqS.volumeId = none)
    (hidU : ¬ requ.volumeId = "")
    (hpathU : ¬ requ.stagingTargetPath = "")
    (hvU : findVol st.volumeCache requ.volumeId = none) :
    (NodeStageVolume o st reqS).1 =
      .error (.statusErr .notFound ("No volume with ID " ++ reqS.volumeId ++ " found on node")) ∧
    (NodeUnstageVolume o st requ).1 = .error (.statusErr .internal "Unable to find volume") := by
  constructor
  · simp [NodeStageVolume, hcapS, hidS, hpathS, hvS]
  · simp [NodeUnstageVolume, hidU, hpathU, hvU]

/-- Closed instance of missing_volume_error_asymmetry on the empty
volume cache. -/
theorem missing_volume_error_asymmetry_witness :
    (NodeStageVolume oracleW stEmpty
        { hasVolumeCapability := true, volumeId := "vx", stagingTargetPath := "/s" }).1 =
      .error (.statusErr .notFound ("No volume with ID " ++ "vx" ++ " found on node")) ∧
    (NodeUnstageVolume oracleW stEmpty { volumeId := "vx", stagingTargetPath := "/s" }).1 =
      .error (.statusErr .internal "Unable to find volume") :=
  missing_volume_error_asymmetry oracleW stEmpty
    { hasVolumeCapability := true, volumeId := "vx", stagingTargetPath := "/s" }
    { volumeId := "vx", stagingTargetPath := "/s" }
    rfl (by decide) (by decide) rfl (by decide) (by decide) rfl

/-! ## C6 -/

/-- C6: prepareAndPerformMount creates the target path and then probes
it; an already-mounted target is success with no Mount call; a probe
failure, and a Mount failure, each delete the just-created target path
before the error propagates. -/
theorem prepare_mount_probe_and_cleanup (o : Oracle) (st : NodeState)
    (s t : String) (b : Bool) :
    (o.createTargetPath t = none → o.isMountPoint t = .ok true →
       prepareAndPerformMount o st s t b =
         (none, st, [.createTargetPath t, .isMountPoint t]))
  ∧ (∀ e, o.createTargetPath t = none → o.isMountPoint t = .error e →
       prepareAndPerformMount o st s t b =
         (some e, st, [.createTargetPath t, .isMountPoint t, .deleteTargetPath t]))
  ∧ (∀ e, o.createTargetPath t = none → o.isMountPoint t = .ok false →
       ¬ (s, t) ∈ st.mounts →
       o.mountOutcome s t (if b then "--bind" else "") = some e →
       prepareAndPerformMount o st s t b =
         (some e, st,
          [.createTargetPath t, .isMountPoint t,
           .mountCall s t (if b then "--bind" else ""), .deleteTargetPath t])) := by
  refine ⟨?_, ?_, ?_⟩
  · intro hc hm
    simp [prepareAndPerformMount, hc, hm]
  · intro e hc hm
    simp [prepareAndPerformMount, hc, hm]
  · intro e hc hm hcont hmo
    simp [prepareAndPerformMount, mountOp, hc, hm, hcont, hmo]

/-- Closed instances of prepare_mount_probe_and_cleanup: the
already-mounted short-circuit, the probe-failure cleanup and the
mount-failure cleanup, each at concrete inputs. -/
theorem prepare_mount_probe_and_cleanup_witness :
    prepareAndPerformMount { oracleW with isMountPoint := fun _ => .ok true } stEmpty
        "/src" "/t" true =
      (none, stEmpty, [.createTargetPath "/t", .isMountPoint "/t"]) ∧
    prepareAndPerformMount
        { oracleW with isMountPoint := fun _ => .error (.plainErr "probe") } stEmpty
        "/src" "/t" true =
      (some (.plainErr "probe"), stEmpty,
       [.createTargetPath "/t", .isMountPoint "/t", .deleteTargetPath "/t"]) ∧
    prepareAndPerformMount
        { oracleW with mountOutcome := fun _ _ _ => some (.plainErr "mount") } stEmpty
        "/src" "/t" true =
      (some (.plainErr "mount"), stEmpty,
       [.createTargetPath "/t", .isMountPoint "/t",
        .mountCall "/src" "/t" "--bind", .deleteTargetPath "/t"]) := by
  refine ⟨?_, ?_, ?_⟩
  · exact (prepare_mount_probe_and_cleanup
      { oracleW with isMountPoint := fun _ => .ok true } stEmpty "/src" "/t" true).1 rfl rfl
  · exact (prepare_mount_probe_and_cleanup
      { oracleW with isMountPoint := fun _ => .error (.plainErr "probe") } stEmpty
      "/src" "/t" true).2.1 (.plainErr "probe") rfl rfl
  · have h := (prepare_mount_probe_and_cleanup
      { oracleW with mountOutcome := fun _ _ _ => some (.plainErr "mount") } stEmpty
      "/src" "/t" true).2.2 (.plainErr "mount") rfl rfl (by decide) rfl
    simpa using h

/-! ## C7 -/

/-- C7: resolving a plain-drive-class volume whose Location is absent
from the drive cache fails with the not-found-style error and never
produces a path. -/
theorem construct_plain_drive_missing (o : Oracle) (st : NodeState) (v : Volume)
    (hsc : v.storageClass = .HDD ∨ v.storageClass = .SSD ∨
           v.storageClass = .NVMe ∨ v.storageClass = .Any)
    (hd : findDrive st.drivesCache v.location = none) :
    (constructPartition o st v).1 =
      .error (.plainErr ("drive with uuid " ++ v.location ++ " wasn't found ")) ∧
    ∀ p, ¬ (constructPartition o st v).1 = .ok p := by
  have h1 : (constructPartition o st v).1 =
      .error (.plainErr ("drive with uuid " ++ v.location ++ " wasn't found ")) := by
    rcases hsc with h | h | h | h <;> simp [constructPartition, h, hd]
  refine ⟨h1, ?_⟩
  intro p hp
  rw [h1] at hp
  exact Except.noConfusion hp

/-- Closed instance of construct_plain_drive_missing at a concrete
plain-drive volume and an empty drive cache. -/
theorem construct_plain_drive_missing_witness :
    (constructPartition oracleW stEmpty
        { id := "v7", storageClass := .HDD, location := "L7", csiStatus := .Created,
          ephemeral := false, owners := [] }).1 =
      .error (.plainErr ("drive with uuid " ++ "L7" ++ " wasn't found ")) ∧
    ∀ p, ¬ (constructPartition oracleW stEmpty
        { id := "v7", storageClass := .HDD, location := "L7", csiStatus := .Created,
          ephemeral := false, owners := [] }).1 = .ok p :=
  construct_plain_drive_missing oracleW stEmpty
    { id := "v7", storageClass := .HDD, location := "L7", csiStatus := .Created,
      ephemeral := false, owners := [] }
    (Or.inl rfl) rfl

/-! ## C8 -/

/-- C8: for the indirection-requiring group-backed class (SSDLVG) the
resolver performs exactly one group-name-translation call and returns
the path /dev/(group)/(volumeId); for the other group-backed class
(HDDLVG) it uses Location directly as the group with no translation
call, with the same path shape. -/
theorem construct_group_backed_path (o : Oracle) (st : NodeState) (v : Volume) :
    (∀ g, v.storageClass = .SSDLVG → o.vgName v.location = .ok g →
       constructPartition o st v =
         (.ok ("/dev/" ++ (g ++ "/" ++ v.id)), [.getVGNameCall v.location]))
  ∧ (v.storageClass = .HDDLVG →
       constructPartition o st v = (.ok ("/dev/" ++ (v.location ++ "/" ++ v.id)), [])) := by
  constructor
  · intro g hsc hvg
    simp [constructPartition, hsc, hvg]
  · intro hsc
    simp [constructPartition, hsc]

/-- Closed instances of construct_group_backed_path for one SSDLVG and
one HDDLVG volume. -/
theorem construct_group_backed_path_witness :
    constructPartition oracleW stEmpty
        { id := "v8", storageClass := .SSDLVG, location := "lvgCR", csiStatus := .Created,
          ephemeral := false, owners := [] } =
      (.ok ("/dev/" ++ ("vg-lvgCR" ++ "/" ++ "v8")), [.getVGNameCall "lvgCR"]) ∧
    constructPartition oracleW stEmpty
        { id := "v9", storageClass := .HDDLVG, location := "vg9", csiStatus := .Created,
          ephemeral := false, owners := [] } =
      (.ok ("/dev/" ++ ("vg9" ++ "/" ++ "v9")), []) :=
  ⟨(construct_group_backed_path oracleW stEmpty
      { id := "v8", storageClass := .SSDLVG, location := "lvgCR", csiStatus := .Created,
        ephemeral := false, owners := [] }).1 "vg-lvgCR" rfl rfl,
   (construct_group_backed_path oracleW stEmpty
      { id := "v9", storageClass := .HDDLVG, location := "vg9", csiStatus := .Created,
        ephemeral := false, owners := [] }).2 rfl⟩

/-! ## C9 -/

/-- C9: a Stage or Publish request with a missing volume capability,
volume id, or staging (Stage) / target (Publish) path fails with an
invalid-argument error, the state is unchanged and no external call —
in particular no mount — is performed. -/
theorem invalid_args_reject_before_mutation :
    (∀ (o : Oracle) (st : NodeState) (req : StageRequest),
       req.hasVolumeCapability = false ∨ req.volumeId = "" ∨ req.stagingTargetPath = "" →
       (∃ m, (NodeStageVolume o st req).1 = .error (.statusErr .invalidArgument m)) ∧
       (NodeStageVolume o st req).2.1 = st ∧ (NodeStageVolume o st req).2.2 = [])
  ∧ (∀ (o : Oracle) (st : NodeState) (req : PublishRequest),
       req.hasVolumeCapability = false ∨ req.volumeId = "" ∨ req.targetPath = "" →
       (∃ m, (NodePublishVolume o st req).1 = .error (.statusErr .invalidArgument m)) ∧
       (NodePublishVolume o st req).2.1 = st ∧ (NodePublishVolume o st req).2.2 = []) := by
  constructor
  · intro o st req h
    by_cases hcap : req.hasVolumeCapability = false
    · exact ⟨⟨"Volume capability missing in request", by simp [NodeStageVolume, hcap]⟩,
        by simp [NodeStageVolume, hcap], by simp [NodeStageVolume, hcap]⟩
    · by_cases hid : req.volumeId = ""
      · exact ⟨⟨"Volume ID missing in request", by simp [NodeStageVolume, hcap, hid]⟩,
          by simp [NodeStageVolume, hcap, hid], by simp [NodeStageVolume, hcap, hid]⟩
      · have hpath : req.stagingTargetPath = "" := by
          rcases h with h | h | h
          · exact absurd h hcap
          · exact absurd h hid
          · exact h
        exact ⟨⟨"Stage Path missing in request", by simp [NodeStageVolume, hcap, hid, hpath]⟩,
          by simp [NodeStageVolume, hcap, hid, hpath],
          by simp [NodeStageVolume, hcap, hid, hpath]⟩
  · intro o st req h
    by_cases hcap : req.hasVolumeCapability = false
    · exact ⟨⟨"Volume capability missing in request", by simp [NodePublishVolume, hcap]⟩,
        by simp [NodePublishVolume, hcap], by simp [NodePublishVolume, hcap]⟩
    · by_cases hid : req.volumeId = ""
      · exact ⟨⟨"Volume ID missing in request", by simp [NodePublishVolume, hcap, hid]⟩,
          by simp [NodePublishVolume, hcap, hid], by simp [NodePublishVolume, hcap, hid]⟩
      · have htp : req.targetPath = "" := by
          rcases h with h | h | h
          · exact absurd h hcap
          · exact absurd h hid
          · exact h
        exact ⟨⟨"Target Path missing in request", by simp [NodePublishVolume, hcap, hid, htp]⟩,
          by simp [NodePublishVolume, hcap, hid, htp],
          by simp [NodePublishVolume, hcap, hid, htp]⟩

/-- Closed instances of invalid_args_reject_before_mutation: a Stage
request without a capability and a Publish request without a target
path. -/
theorem invalid_args_reject_before_mutation_witness :
    ((∃ m, (NodeStageVolume oracleW stReady
        { hasVolumeCapability := false, volumeId := "v1", stagingTargetPath := "/stage" }).1 =
          .error (.statusErr .invalidArgument m)) ∧
     (NodeStageVolume oracleW stReady
        { hasVolumeCapability := false, volumeId := "v1", stagingTargetPath := "/stage" }).2.1 =
       stReady ∧
     (NodeStageVolume oracleW stReady
        { hasVolumeCapability := false, volumeId := "v1", stagingTargetPath := "/stage" }).2.2 = []) ∧
    ((∃ m, (NodePublishVolume oracleW stReady
        { hasVolumeCapability := true, volumeId := "v1", targetPath := "",
          stagingTargetPath := "/stage", volumeContext := [] }).1 =
          .error (.statusErr .invalidArgument m)) ∧
     (NodePublishVolume oracleW stReady
        { hasVolumeCapability := true, volumeId := "v1", targetPath := "",
          stagingTargetPath := "/stage", volumeContext := [] }).2.1 = stReady ∧
     (NodePublishVolume oracleW stReady
        { hasVolumeCapability := true, volumeId := "v1", targetPath := "",
          stagingTargetPath := "/stage", volumeContext := [] }).2.2 = []) :=
  ⟨invalid_args_reject_before_mutation.1 oracleW stReady
      { hasVolumeCapability := false, volumeId := "v1", stagingTargetPath := "/stage" }
      (Or.inl rfl),
   invalid_args_reject_before_mutation.2 oracleW stReady
      { hasVolumeCapability := true, volumeId := "v1", targetPath := "",
        stagingTargetPath := "/stage", volumeContext := [] }
      (Or.inr (Or.inr rfl))⟩

/-! ## C10 -/

/-- C10: in Publish, the best-effort owner recording precedes the
Failed-status check: on a cached volume with status Failed and a
pod-name context entry, the handler returns the failed-status error yet
the pod name has been added to the cached volume's Owners. -/
theorem publish_failed_volume_still_records_owner
    (o : Oracle) (st : NodeState) (req : PublishRequest) (v : Volume) (pod : String)
    (hcap : req.hasVolumeCapability = true)
    (hid : ¬ req.volumeId = "") (htp : ¬ req.targetPath = "")
    (heph : lookupStr req.volumeContext EphemeralKey = none)
    (hsp : ¬ req.stagingTargetPath = "")
    (hv : findVol st.volumeCache req.volumeId = some v)
    (hfailed : v.csiStatus = .Failed)
    (hpod : lookupStr req.volumeContext PodNameKey = some pod)
    (hok : o.addOwnerErr = none)
    (hnotin : ¬ pod ∈ v.owners) :
    (NodePublishVolume o st req).1 =
      .error (.plainErr ("corresponding volume CR " ++ v.id ++ " reached failed status")) ∧
    ownersInCache (NodePublishVolume o st req).2.1 req.volumeId = some (v.owners ++ [pod]) := by
  constructor
  · simp [NodePublishVolume, hcap, hid, htp, heph, hsp, publishTail, hv, hpod,
      addVolumeOwner, hok, hfailed]
  · simp [NodePublishVolume, hcap, hid, htp, heph, hsp, publishTail, hv, hpod,
      addVolumeOwner, hok, hfailed, ownersInCache, findVol_mapVol_self, hnotin]

/-- A volume already in the Failed state, cached under "v10". -/
def vFailed : Volume :=
  { id := "v10", storageClass := .HDD, location := "L10", csiStatus := .Failed,
    ephemeral := false, owners := ["podA"] }

/-- State caching vFailed. -/
def stFailed : NodeState :=
  { volumeCache := [("v10", vFailed)], drivesCache := [], mounts := [] }

/-- A Publish request for vFailed whose context carries a pod name. -/
def reqPubFailed : PublishRequest :=
  { hasVolumeCapability := true, volumeId := "v10", targetPath := "/t10",
    stagingTargetPath := "/s10", volumeContext := [(PodNameKey, "podB")] }

/-- Closed instance of publish_failed_volume_still_records_owner. -/
theorem publish_failed_volume_still_records_owner_witness :
    (NodePublishVolume oracleW stFailed reqPubFailed).1 =
      .error (.plainErr ("corresponding volume CR " ++ "v10" ++ " reached failed status")) ∧
    ownersInCache (NodePublishVolume oracleW stFailed reqPubFailed).2.1 "v10" =
      some (["podA"] ++ ["podB"]) :=
  publish_failed_volume_still_records_owner oracleW stFailed reqPubFailed vFailed "podB"
    rfl (by decide) (by decide) (by decide) (by decide) rfl rfl (by decide) rfl (by decide)

/-! ## C3 -/

/-- A Published volume with two owner pods. -/
def vTwoOwners : Volume :=
  { id := "v3", storageClass := .HDD, location := "L3", csiStatus := .Published,
    ephemeral := false, owners := ["podA", "podB"] }

/-- State caching vTwoOwners with its published mount in place. -/
def stTwoOwners : NodeState :=
  { volumeCache := [("v3", vTwoOwners)], drivesCache := [("L3", { serialNumber := "sn3" })],
    mounts := [("/dev/sn3p1", "/t3")] }

/-- An Unpublish request for vTwoOwners's target path. -/
def requnpTwo : UnpublishRequest := { volumeId := "v3", targetPath := "/t3" }

/-- C3 (divergence of the code from the claim): on a volume with
exactly two owners and a successful unmount, Unpublish removes NO owner
and leaves status Published, and the subsequent Unpublish still sees
two owners, so it again leaves status Published instead of
transitioning to Ready. -/
theorem unpublish_two_owners_never_removes_owner :
    (NodeUnpublishVolume oracleW stTwoOwners requnpTwo).1 = .ok () ∧
    ownersInCache (NodeUnpublishVolume oracleW stTwoOwners requnpTwo).2.1 "v3" =
      some ["podA", "podB"] ∧
    statusInCache (NodeUnpublishVolume oracleW stTwoOwners requnpTwo).2.1 "v3" =
      some .Published ∧
    (NodeUnpublishVolume oracleW
        (NodeUnpublishVolume oracleW stTwoOwners requnpTwo).2.1 requnpTwo).1 = .ok () ∧
    ownersInCache (NodeUnpublishVolume oracleW
        (NodeUnpublishVolume oracleW stTwoOwners requnpTwo).2.1 requnpTwo).2.1 "v3" =
      some ["podA", "podB"] ∧
    statusInCache (NodeUnpublishVolume oracleW
        (NodeUnpublishVolume oracleW stTwoOwners requnpTwo).2.1 requnpTwo).2.1 "v3" =
      some .Published := by
  decide

/-! ## C4 -/

/-- C4: Unpublish of an ephemeral volume that reaches last-owner
removal with a successful unmount calls the persistence collaborator's
delete exactly once; an already-absent record is success; after a
successful delete it waits for a terminal Failed-or-Removed state and
then triggers the post-deletion cleanup, in that order; a delete
failure and a wait failure each surface as an internal failure. -/
theorem unpublish_ephemeral_last_owner_delete_protocol
    (o : Oracle) (st : NodeState) (req : UnpublishRequest) (v : Volume)
    (hid : ¬ req.volumeId = "") (htp : ¬ req.targetPath = "")
    (hv : findVol st.volumeCache req.volumeId = some v)
    (hkey : v.id = req.volumeId)
    (hum : o.unmountOutcome req.targetPath = none)
    (howners : ¬ v.owners.length > 1)
    (heph : v.ephemeral = true) :
    (o.deleteRes = .absent →
       (NodeUnpublishVolume o st req).1 = .ok () ∧
       (NodeUnpublishVolume o st req).2.2 =
         [.unmountCall req.targetPath, .setStatus req.volumeId .VolumeReady,
          .svcDelete req.volumeId])
  ∧ (o.deleteRes = .ok → o.waitErr = none →
       (NodeUnpublishVolume o st req).1 = .ok () ∧
       (NodeUnpublishVolume o st req).2.2 =
         [.unmountCall req.targetPath, .setStatus req.volumeId .VolumeReady,
          .svcDelete req.volumeId, .svcWait req.volumeId [.Failed, .Removed],
          .svcUpdateCRs req.volumeId])
  ∧ (∀ msg, o.deleteRes = .fail msg →
       (NodeUnpublishVolume o st req).1 = .error (.statusErr .internal msg) ∧
       (NodeUnpublishVolume o st req).2.2 =
         [.unmountCall req.targetPath, .setStatus req.volumeId .VolumeReady,
          .svcDelete req.volumeId])
  ∧ (∀ e, o.deleteRes = .ok → o.waitErr = some e →
       (NodeUnpublishVolume o st req).1 =
         .error (.statusErr .internal "Unable to delete volume") ∧
       (NodeUnpublishVolume o st req).2.2 =
         [.unmountCall req.targetPath, .setStatus req.volumeId .VolumeReady,
          .svcDelete req.volumeId, .svcWait req.volumeId [.Failed, .Removed]]) := by
  refine ⟨?_, ?_, ?_, ?_⟩
  · intro hdel
    constructor <;>
      simp [NodeUnpublishVolume, hid, htp, hv, unmountSvc, unmountOp, hum, howners,
        setVolStatus, hkey, findVol_mapVol_self, heph, hdel]
  · intro hdel hwait
    constructor <;>
      simp [NodeUnpublishVolume, hid, htp, hv, unmountSvc, unmountOp, hum, howners,
        setVolStatus, hkey, findVol_mapVol_self, heph, hdel, hwait]
  · intro msg hdel
    constructor <;>
      simp [NodeUnpublishVolume, hid, htp, hv, unmountSvc, unmountOp, hum, howners,
        setVolStatus, hkey, findVol_mapVol_self, heph, hdel]
  · intro e hdel hwait
    constructor <;>
      simp [NodeUnpublishVolume, hid, htp, hv, unmountSvc, unmountOp, hum, howners,
        setVolStatus, hkey, findVol_mapVol_self, heph, hdel, hwait]

/-- An ephemeral Published volume with a single owner. -/
def vEph : Volume :=
  { id := "v4", storageClass := .HDD, location := "L4", csiStatus := .Published,
    ephemeral := true, owners := ["podA"] }

/-- State caching vEph with its published mount in place. -/
def stEph : NodeState :=
  { volumeCache := [("v4", vEph)], drivesCache := [], mounts := [("/dev/x", "/t4")] }

/-- An Unpublish request for vEph's target path. -/
def requnpEph : UnpublishRequest := { volumeId := "v4", targetPath := "/t4" }

/-- Closed instance of unpublish_ephemeral_last_owner_delete_protocol
in the successful delete-wait-cleanup scenario. -/
theorem unpublish_ephemeral_last_owner_delete_protocol_witness :
    (NodeUnpublishVolume oracleW stEph requnpEph).1 = .ok () ∧
    (NodeUnpublishVolume oracleW stEph requnpEph).2.2 =
      [.unmountCall "/t4", .setStatus "v4" .VolumeReady, .svcDelete "v4",
       .svcWait "v4" [.Failed, .Removed], .svcUpdateCRs "v4"] :=
  (unpublish_ephemeral_last_owner_delete_protocol oracleW stEph requnpEph vEph
      (by decide) (by decide) rfl rfl rfl (by decide) rfl).2.1 rfl rfl

/-! ## C2 -/

/-- A Created plain-drive volume cached under "v2". -/
def vCreated : Volume :=
  { id := "v2", storageClass := .HDD, location := "L2", csiStatus := .Created,
    ephemeral := false, owners := [] }

/-- State caching vCreated with an empty drive cache, so device-path
resolution fails. -/
def stNoDrive : NodeState :=
  { volumeCache := [("v2", vCreated)], drivesCache := [], mounts := [] }

/-- A well-formed Stage request for vCreated. -/
def reqStageNoDrive : StageRequest :=
  { hasVolumeCapability := true, volumeId := "v2", stagingTargetPath := "/s2" }

/-- C2 counterexample: in Stage, after the volume is successfully
looked up, a device-path resolution failure returns an internal error
yet the cached status is NOT set to Failed — it stays Created. -/
theorem stage_resolution_failure_leaves_status :
    (findVol stNoDrive.volumeCache "v2").isSome = true ∧
    (NodeStageVolume oracleW stNoDrive reqStageNoDrive).1 =
      .error (.statusErr .internal "failed to publish volume") ∧
    statusInCache (NodeStageVolume oracleW stNoDrive reqStageNoDrive).2.1 "v2" =
      some .Created := by
  decide

theorem clearVolumeOwners_findVol_isSome (o : Oracle) (st : NodeState) (id : String) :
    (findVol (clearVolumeOwners o st id).2.1.volumeCache id).isSome =
      (findVol st.volumeCache id).isSome := by
  cases hc : o.clearOwnersErr with
  | some e => simp [clearVolumeOwners, hc]
  | none =>
    have hvc : (clearVolumeOwners o st id).2.1.volumeCache =
        mapVol st.volumeCache id (fun v => { v with owners := [] }) := by
      simp [clearVolumeOwners, hc]
    rw [hvc, findVol_mapVol_self]
    cases findVol st.volumeCache id <;> rfl

/-- C2 (amended): after a successful cache lookup, a first-time mount
failure in Stage, a mount failure in Publish, and an unmount failure in
Unstage (whatever the outcome of its owner-clear step, which only logs)
or in Unpublish each set the cached status to Failed; Stage's
device-path resolution failure and its already-Ready re-mount failure
are the exceptions that return an error without setting Failed. -/
theorem lookedup_failure_marks_failed_cases :
    (∀ (o : Oracle) (st : NodeState) (req : StageRequest) (v : Volume) (p : String)
       (tr : List Effect) (e : NodeErr),
       req.hasVolumeCapability = true → ¬ req.volumeId = "" → ¬ req.stagingTargetPath = "" →
       findVol st.volumeCache req.volumeId = some v →
       ¬ v.csiStatus = .Failed → ¬ v.csiStatus = .VolumeReady →
       constructPartition o st v = (.ok p, tr) →
       (prepareAndPerformMount o st p req.stagingTargetPath false).1 = some e →
       statusInCache (NodeStageVolume o st req).2.1 req.volumeId = some .Failed)
  ∧ (∀ (o : Oracle) (st : NodeState) (req : UnstageRequest) (v : Volume) (e : NodeErr),
       ¬ req.volumeId = "" → ¬ req.stagingTargetPath = "" →
       findVol st.volumeCache req.volumeId = some v → v.id = req.volumeId →
       ¬ v.csiStatus = .Failed →
       o.unmountOutcome req.stagingTargetPath = some e →
       (NodeUnstageVolume o st req).1 = .error (.statusErr .internal "Unable to unmount") ∧
       statusInCache (NodeUnstageVolume o st req).2.1 req.volumeId = some .Failed)
  ∧ (∀ (o : Oracle) (st : NodeState) (req : PublishRequest) (v : Volume) (e : NodeErr),
       req.hasVolumeCapability = true → ¬ req.volumeId = "" → ¬ req.targetPath = "" →
       lookupStr req.volumeContext EphemeralKey = none → ¬ req.stagingTargetPath = "" →
       findVol st.volumeCache req.volumeId = some v → v.id = req.volumeId →
       ¬ v.csiStatus = .Failed →
       (prepareAndPerformMount o st req.stagingTargetPath req.targetPath true).1 = some e →
       statusInCache (NodePublishVolume o st req).2.1 req.volumeId = some .Failed)
  ∧ (∀ (o : Oracle) (st : NodeState) (req : UnpublishRequest) (v : Volume) (e : NodeErr),
       ¬ req.volumeId = "" → ¬ req.targetPath = "" →
       findVol st.volumeCache req.volumeId = some v → v.id = req.volumeId →
       o.unmountOutcome req.targetPath = some e →
       (NodeUnpublishVolume o st req).1 = .error (.statusErr .internal "Unable to unmount") ∧
       statusInCache (NodeUnpublishVolume o st req).2.1 req.volumeId = some .Failed) := by
  refine ⟨?_, ?_, ?_, ?_⟩
  · intro o st req v p tr e hcap hid hpath hv hfail hnready hpart hm
    have hvc := prepareAndPerformMount_volumeCache o st p req.stagingTargetPath false
    rcases hq : prepareAndPerformMount o st p req.stagingTargetPath false with ⟨r, st2, tr2⟩
    rw [hq] at hm hvc
    simp only at hm hvc
    subst hm
    have hred : (NodeStageVolume o st req).2.1 = setVolStatus st2 req.volumeId .Failed := by
      simp [NodeStageVolume, hcap, hid, hpath, hv, hfail, hnready, hpart, hq]
    rw [hred]
    exact statusInCache_setVolStatus_self st2 req.volumeId .Failed
      (by rw [hvc, hv]; rfl)
  · intro o st req v e hid hpath hv hkey hfail hum
    have hiso := clearVolumeOwners_findVol_isSome o st req.volumeId
    rcases hc : clearVolumeOwners o st req.volumeId with ⟨rc, st1, tr1⟩
    rw [hc] at hiso
    simp only at hiso
    constructor
    · simp [NodeUnstageVolume, hid, hpath, hv, hfail, hc, unmountSvc, unmountOp, hum]
    · have hred : (NodeUnstageVolume o st req).2.1 = setVolStatus st1 v.id .Failed := by
        simp [NodeUnstageVolume, hid, hpath, hv, hfail, hc, unmountSvc, unmountOp, hum]
      rw [hred, hkey]
      exact statusInCache_setVolStatus_self st1 req.volumeId .Failed
        (by rw [hiso, hv]; rfl)
  · intro o st req v e hcap hid htp heph hsp hv hkey hfail hm
    cases hpod : lookupStr req.volumeContext PodNameKey with
    | none =>
      have hvc := prepareAndPerformMount_volumeCache o st req.stagingTargetPath req.targetPath true
      rcases hq : prepareAndPerformMount o st req.stagingTargetPath req.targetPath true
        with ⟨r, st2, tr2⟩
      rw [hq] at hm hvc
      simp only at hm hvc
      subst hm
      have hred : (NodePublishVolume o st req).2.1 = setVolStatus st2 v.id .Failed := by
        simp [NodePublishVolume, hcap, hid, htp, heph, hsp, publishTail, hv, hpod, hfail, hq]
      rw [hred, hkey]
      exact statusInCache_setVolStatus_self st2 req.volumeId .Failed
        (by rw [hvc, hv]; rfl)
    | some pod =>
      have hmounts := addVolumeOwner_mounts o st req.volumeId pod
      have hisoa := addVolumeOwner_findVol_isSome o st req.volumeId pod
      rcases ha : addVolumeOwner o st req.volumeId pod with ⟨ra, st1, tr1⟩
      rw [ha] at hmounts hisoa
      simp only at hmounts hisoa
      have hm1 : (prepareAndPerformMount o st1 req.stagingTargetPath req.targetPath true).1 =
          some e := by
        rw [prepareAndPerformMount_fst_congr o st1 st req.stagingTargetPath req.targetPath true
          hmounts]
        exact hm
      have hvc := prepareAndPerformMount_volumeCache o st1 req.stagingTargetPath req.targetPath true
      rcases hq : prepareAndPerformMount o st1 req.stagingTargetPath req.targetPath true
        with ⟨r, st2, tr2⟩
      rw [hq] at hm1 hvc
      simp only at hm1 hvc
      subst hm1
      have hred : (NodePublishVolume o st req).2.1 = setVolStatus st2 v.id .Failed := by
        simp [NodePublishVolume, hcap, hid, htp, heph, hsp, publishTail, hv, hpod, ha, hfail, hq]
      rw [hred, hkey]
      exact statusInCache_setVolStatus_self st2 req.volumeId .Failed
        (by rw [hvc, hisoa, hv]; rfl)
  · intro o st req v e hid htp hv hkey hum
    constructor
    · simp [NodeUnpublishVolume, hid, htp, hv, unmountSvc, unmountOp, hum]
    · have hred : (NodeUnpublishVolume o st req).2.1 = setVolStatus st v.id .Failed := by
        simp [NodeUnpublishVolume, hid, htp, hv, unmountSvc, unmountOp, hum]
      rw [hred, hkey]
      exact statusInCache_setVolStatus_self st req.volumeId .Failed
        (by rw [hv]; rfl)

/-- An oracle whose Mount call fails. -/
def oMountFail : Oracle :=
  { oracleW with mountOutcome := fun _ _ _ => some (.plainErr "mount failure") }

/-- An oracle whose Unmount call fails. -/
def oUnmountFail : Oracle :=
  { oracleW with unmountOutcome := fun _ => some (.plainErr "unmount failure") }

/-- A Created volume-group-backed volume cached under "v2b". -/
def vStageB : Volume :=
  { id := "v2b", storageClass := .HDDLVG, location := "vgB", csiStatus := .Created,
    ephemeral := false, owners := [] }

/-- State caching vStageB. -/
def stStageB : NodeState :=
  { volumeCache := [("v2b", vStageB)], drivesCache := [], mounts := [] }

/-- A well-formed Stage request for vStageB. -/
def reqStageB : StageRequest :=
  { hasVolumeCapability := true, volumeId := "v2b", stagingTargetPath := "/s2b" }

/-- A Published volume cached under "v2c". -/
def vPubC : Volume :=
  { id := "v2c", storageClass := .HDD, location := "L2c", csiStatus := .Published,
    ephemeral := false, owners := ["podA"] }

/-- State caching vPubC. -/
def stPubC : NodeState :=
  { volumeCache := [("v2c", vPubC)], drivesCache := [], mounts := [("/dev/y", "/t2c")] }

/-- An Unpublish request for vPubC's target path. -/
def requnpC : UnpublishRequest := { volumeId := "v2c", targetPath := "/t2c" }

/-- Closed instances of lookedup_failure_marks_failed_cases: a Stage
whose first-time mount fails and an Unpublish whose unmount fails. -/
theorem lookedup_failure_marks_failed_cases_witness :
    statusInCache (NodeStageVolume oMountFail stStageB reqStageB).2.1 "v2b" = some .Failed ∧
    ((NodeUnpublishVolume oUnmountFail stPubC requnpC).1 =
        .error (.statusErr .internal "Unable to unmount") ∧
     statusInCache (NodeUnpublishVolume oUnmountFail stPubC requnpC).2.1 "v2c" =
        some .Failed) :=
  ⟨lookedup_failure_marks_failed_cases.1 oMountFail stStageB reqStageB vStageB
      "/dev/vgB/v2b" [] (.plainErr "mount failure")
      rfl (by decide) (by decide) rfl (by decide) (by decide) rfl (by decide),
   lookedup_failure_marks_failed_cases.2.2.2 oUnmountFail stPubC requnpC vPubC
      (.plainErr "unmount failure")
      (by decide) (by decide) rfl rfl rfl⟩

end CsiNode
